import Mathlib

/-
Verification development for the sockudo realtime pub/sub server.

Shallow embedding of the dispatch-engine code:
  - src/adapter/horizontal_adapter_base.rs (cluster send, send_request,
    broadcast listener, get_channel_members)
  - src/adapter/local_adapter.rs (send_batched_messages, get_sockets_count)
  - src/adapter/transports/redis_cluster_transport.rs (get_node_count)
  - src/channel/manager.rs (subscribe, parse_presence_data,
    signature_is_valid, get_data_to_sign_for_signature)

Rust HashMaps over String keys are embedded as association lists with
overwriting insert; fallible code returns Except; stateful interaction with
the connection manager and with the pending-request table is embedded as an
explicit event trace so that ordering claims can be stated.
-/

namespace Sockudo

/-- Minimal model of a JSON value as manipulated through sonic_rs in the
channel manager: only object field lookup and string extraction are used. -/
inductive JsonValue where
  | null
  | bool (b : Bool)
  | num (n : Int)
  | str (s : String)
  | arr (elems : List JsonValue)
  | obj (fields : List (String × JsonValue))

/-- First-match lookup in an association list, the read operation of a
HashMap embedded as a list of key-value pairs with distinct keys. -/
def lookupKey {α : Type} : List (String × α) → String → Option α
  | [], _ => none
  | (k0, v) :: rest, k => if k0 = k then some v else lookupKey rest k

/-- Rust str::starts_with embedded on the character lists of the two
strings. -/
def strStartsWith (s p : String) : Bool := p.data.isPrefixOf s.data

/-- HashMap::insert embedded on association lists: overwrite the entry for
the key if present, otherwise append a fresh entry. -/
def hashmapInsert {α : Type} : List (String × α) → String → α → List (String × α)
  | [], k, v => [(k, v)]
  | (k0, v0) :: rest, k, v =>
    if k0 = k then (k0, v) :: rest else (k0, v0) :: hashmapInsert rest k v

/-- HashMap::extend embedded on association lists: insert every entry of the
second map into the first, overwriting on key conflict. -/
def hashmapExtend {α : Type} (m : List (String × α)) (entries : List (String × α)) :
    List (String × α) :=
  entries.foldl (fun acc kv => hashmapInsert acc kv.1 kv.2) m

/-- PresenceMemberInfo as used by get_channel_members: a user id together
with optional user info. -/
structure PresenceMemberInfo where
  user_id : String
  user_info : Option JsonValue

/-- HorizontalAdapterBase::get_channel_members, merge step: the local
members map is extended with the members of the aggregated remote response
(`members.extend(response.members)` in the source). -/
def get_channel_members_combined
    (localMembers remoteMembers : List (String × PresenceMemberInfo)) :
    List (String × PresenceMemberInfo) :=
  hashmapExtend localMembers remoteMembers

/-- The claim as stated for C1: the combined map is a union over user_id in
which the local entry is kept whenever a user_id occurs on both sides. -/
def channelMembersLocalWins
    (localMembers remoteMembers : List (String × PresenceMemberInfo)) : Prop :=
  ∀ uid,
    lookupKey (get_channel_members_combined localMembers remoteMembers) uid =
      match lookupKey localMembers uid with
      | some v => some v
      | none => lookupKey remoteMembers uid

/-- Concrete local members map with a single conflicting user id. -/
def c1LocalEx : List (String × PresenceMemberInfo) :=
  [("u", { user_id := "local", user_info := none })]

/-- Concrete remote members map holding the same user id as `c1LocalEx`
with a different member record. -/
def c1RemoteEx : List (String × PresenceMemberInfo) :=
  [("u", { user_id := "remote", user_info := none })]

theorem lookupKey_hashmapInsert_self {α : Type} (m : List (String × α)) (k : String) (v : α) :
    lookupKey (hashmapInsert m k v) k = some v := by
  induction m with
  | nil => simp [hashmapInsert, lookupKey]
  | cons kv rest ih =>
    obtain ⟨k0, v0⟩ := kv
    by_cases h : k0 = k
    · simp [hashmapInsert, lookupKey, h]
    · simp [hashmapInsert, lookupKey, h, ih]

theorem lookupKey_hashmapInsert_ne {α : Type} (m : List (String × α)) (k u : String) (v : α)
    (h : u ≠ k) : lookupKey (hashmapInsert m k v) u = lookupKey m u := by
  induction m with
  | nil =>
    simp only [hashmapInsert, lookupKey]
    rw [if_neg (fun hh : k = u => h hh.symm)]
  | cons kv rest ih =>
    obtain ⟨k0, v0⟩ := kv
    simp only [hashmapInsert]
    by_cases h0 : k0 = k
    · subst h0
      rw [if_pos rfl]
      simp only [lookupKey]
      rw [if_neg (fun hh : k0 = u => h hh.symm), if_neg (fun hh : k0 = u => h hh.symm)]
    · rw [if_neg h0]
      simp only [lookupKey]
      by_cases h1 : k0 = u
      · rw [if_pos h1, if_pos h1]
      · rw [if_neg h1, if_neg h1, ih]

theorem lookupKey_eq_none_of_not_mem {α : Type} (m : List (String × α)) (k : String)
    (h : k ∉ m.map Prod.fst) : lookupKey m k = none := by
  induction m with
  | nil => rfl
  | cons kv rest ih =>
    obtain ⟨k0, v0⟩ := kv
    simp only [List.map_cons, List.mem_cons] at h
    push_neg at h
    simp only [lookupKey]
    rw [if_neg (fun hh : k0 = k => h.1 hh.symm), ih h.2]

/-- C1 (corrected): for every user_id, the combined members map holds the
remote entry when the remote response contains that user_id and the local
entry otherwise, provided the remote map has no duplicate keys. -/
theorem get_channel_members_remote_wins
    (localMembers remoteMembers : List (String × PresenceMemberInfo))
    (hnodup : (remoteMembers.map Prod.fst).Nodup) :
    ∀ uid,
      lookupKey (get_channel_members_combined localMembers remoteMembers) uid =
        match lookupKey remoteMembers uid with
        | some v => some v
        | none => lookupKey localMembers uid := by
  unfold get_channel_members_combined
  induction remoteMembers generalizing localMembers with
  | nil => intro uid; simp [hashmapExtend, lookupKey]
  | cons kv rest ih =>
    obtain ⟨k, v⟩ := kv
    simp only [List.map_cons, List.nodup_cons] at hnodup
    intro uid
    have hstep : hashmapExtend localMembers ((k, v) :: rest) =
        hashmapExtend (hashmapInsert localMembers k v) rest := rfl
    rw [hstep, ih (hashmapInsert localMembers k v) hnodup.2 uid]
    by_cases huid : k = uid
    · subst huid
      rw [lookupKey_eq_none_of_not_mem rest k hnodup.1]
      simp [lookupKey, lookupKey_hashmapInsert_self]
    · simp only [lookupKey, if_neg huid]
      cases hr : lookupKey rest uid with
      | some w => simp
      | none => simp [lookupKey_hashmapInsert_ne localMembers k uid v (fun hh => huid hh.symm)]

/-- C1 counterexample: with user id "u" present both locally and remotely,
the combined map keeps the remote record, so the local-wins claim is false. -/
theorem channelMembersLocalWins_false :
    channelMembersLocalWins c1LocalEx c1RemoteEx = False := by
  apply eq_false
  intro hclaim
  have h := hclaim "u"
  have hleft : lookupKey (get_channel_members_combined c1LocalEx c1RemoteEx) "u" =
      some { user_id := "remote", user_info := none } := rfl
  have hright :
      (match lookupKey c1LocalEx "u" with
        | some v => some v
        | none => lookupKey c1RemoteEx "u") =
        some ({ user_id := "local", user_info := none } : PresenceMemberInfo) := rfl
  rw [hleft, hright] at h
  have huid := congrArg PresenceMemberInfo.user_id (Option.some.inj h)
  exact absurd huid (by decide)

/-- Witness for the corrected C1 theorem at the concrete conflicting maps. -/
theorem get_channel_members_remote_wins_witness :
    ((c1RemoteEx.map Prod.fst).Nodup) ∧
      lookupKey (get_channel_members_combined c1LocalEx c1RemoteEx) "u" =
        match lookupKey c1RemoteEx "u" with
        | some v => some v
        | none => lookupKey c1LocalEx "u" := by
  refine ⟨by decide, ?_⟩
  exact get_channel_members_remote_wins c1LocalEx c1RemoteEx (by decide) "u"

/-- Ceiling division on naturals, written the way the spec writes
`ceil(n / k)`. -/
def ceilDiv (n k : Nat) : Nat := (n + k - 1) / k

/-- LocalAdapter::send_batched_messages, batch-shape selection: for a target
set of the given size, the pair (batch_size, max_concurrent_batches) chosen
by the tiered `if` in the source. -/
def batchParams (socket_count : Nat) : Nat × Nat :=
  if socket_count ≤ 100 then (socket_count, 1)
  else if socket_count ≤ 1000 then (50, 4)
  else (100, 8)

/-- Slice::chunks embedded on lists: split into consecutive runs of `k`
elements, the last run possibly shorter. Only used with `1 ≤ k`. -/
def chunksList {α : Type} (k : Nat) : List α → List (List α)
  | [] => []
  | a :: rest => (a :: rest.take (k - 1)) :: chunksList k (rest.drop (k - 1))
termination_by l => l.length
decreasing_by
  simp only [List.length_cons, List.length_drop]
  omega

/-- One spawned batch task of send_batched_messages: the task acquires
exactly one semaphore permit, then sends to its batch sequentially. -/
structure BatchTask (α : Type) where
  permits_acquired : Nat
  batch : List α

/-- LocalAdapter::send_batched_messages: split the targets into chunks of
`batch_size` and spawn one task per chunk, each acquiring one permit from a
semaphore of `max_concurrent_batches` permits created for this call. -/
def send_batched_messages {α : Type} (target_socket_refs : List α) : List (BatchTask α) :=
  let params := batchParams target_socket_refs.length
  (chunksList params.1 target_socket_refs).map (fun c => ⟨1, c⟩)

/-- Number of chunks claimed by C2 for a target set of size n under a
global concurrency cap maxc: ceil(n / maxc) clamped to the range 1..8. -/
def specChunks (maxc n : Nat) : Nat := min (max (ceilDiv n maxc) 1) 8

/-- Per-chunk size (and permit count) claimed by C2: n / chunks clamped to
the range 1..maxc. -/
def specChunkSize (maxc n : Nat) : Nat := min (max (n / specChunks maxc n) 1) maxc

/-- The claim as stated for C2, at a target set of size n and concurrency
cap maxc: the chunk count and the permits acquired per chunk follow the
clamped formulas. -/
def claimC2At (maxc n : Nat) : Prop :=
  (send_batched_messages (List.replicate n ())).length = specChunks maxc n ∧
    ∀ t ∈ send_batched_messages (List.replicate n ()), t.permits_acquired = specChunkSize maxc n

theorem chunksList_length {α : Type} (k : Nat) (hk : 1 ≤ k) (l : List α) :
    (chunksList k l).length = ceilDiv l.length k := by
  generalize hn : l.length = n
  induction n using Nat.strong_induction_on generalizing l with
  | _ n ih =>
    cases l with
    | nil =>
      simp only [List.length_nil] at hn
      subst hn
      simp only [chunksList, List.length_nil, ceilDiv]
      have h0 : (0 + k - 1) / k = 0 := Nat.div_eq_of_lt (by omega)
      omega
    | cons a rest =>
      simp only [List.length_cons] at hn
      have hdrop : (rest.drop (k - 1)).length = rest.length - (k - 1) := List.length_drop _ _
      have hlt : (rest.drop (k - 1)).length < n := by omega
      simp only [chunksList, List.length_cons]
      rw [ih _ hlt _ rfl, hdrop, ceilDiv, ceilDiv]
      rcases Nat.lt_or_ge rest.length (k - 1) with hc | hc
      · have h1 : rest.length - (k - 1) = 0 := by omega
        rw [h1]
        have h2 : (0 + k - 1) / k = 0 := Nat.div_eq_of_lt (by omega)
        have h3 : (n + k - 1) / k = 1 := by
          have hn1 : n + k - 1 = (n - 1) + k := by omega
          rw [hn1, Nat.add_div_right _ (by omega)]
          have : (n - 1) / k = 0 := Nat.div_eq_of_lt (by omega)
          omega
        omega
      · have h1 : rest.length - (k - 1) + k - 1 = rest.length := by omega
        have h2 : n + k - 1 = rest.length + k := by omega
        rw [h1, h2, Nat.add_div_right _ (by omega)]

theorem chunksList_join {α : Type} (k : Nat) (l : List α) :
    (chunksList k l).flatten = l := by
  generalize hn : l.length = n
  induction n using Nat.strong_induction_on generalizing l with
  | _ n ih =>
    cases l with
    | nil => simp [chunksList]
    | cons a rest =>
      simp only [List.length_cons] at hn
      have hlt : (rest.drop (k - 1)).length < n := by
        rw [List.length_drop]; omega
      simp only [chunksList, List.flatten_cons]
      rw [ih _ hlt _ rfl]
      simp [List.take_append_drop]

theorem chunksList_size_le {α : Type} (k : Nat) (hk : 1 ≤ k) (l : List α) :
    ∀ c ∈ chunksList k l, c.length ≤ k := by
  generalize hn : l.length = n
  induction n using Nat.strong_induction_on generalizing l with
  | _ n ih =>
    cases l with
    | nil => simp [chunksList]
    | cons a rest =>
      simp only [List.length_cons] at hn
      have hlt : (rest.drop (k - 1)).length < n := by
        rw [List.length_drop]; omega
      simp only [chunksList, List.mem_cons]
      rintro c (rfl | hc)
      · simp only [List.length_cons]
        have := List.length_take_le (k - 1) rest
        omega
      · exact ih _ hlt _ rfl c hc

/-- C2 counterexample: with 1001 targets the source produces
ceil(1001/100) = 11 chunks, which no concurrency cap can reconcile with the
claimed chunk count clamped to at most 8. -/
theorem claimC2_false : (∃ maxc : Nat, 1 ≤ maxc ∧ claimC2At maxc 1001) = False := by
  apply eq_false
  rintro ⟨maxc, hmaxc, hcount, hperm⟩
  have hlen : (send_batched_messages (List.replicate 1001 ())).length = 11 := by
    unfold send_batched_messages
    rw [List.length_map]
    have hp : batchParams (List.replicate 1001 ()).length = (100, 8) := by
      rw [List.length_replicate]; rfl
    rw [hp, chunksList_length 100 (by omega)]
    rw [List.length_replicate]
    rfl
  rw [hlen] at hcount
  have h8 : specChunks maxc 1001 ≤ 8 := min_le_right _ _
  omega

/-- C2 (corrected): send_batched_messages uses tiered batching. The targets
are split into ceil(n / batch_size) chunks that concatenate back to the
target list in order, each chunk holds at most batch_size targets, every
spawned batch task acquires exactly one permit, and the per-call semaphore
bounds concurrency by max_concurrent_batches which never exceeds 8; the
tier table is (n, 1) for n up to 100, (50, 4) for n up to 1000 and (100, 8)
beyond. -/
theorem send_batched_messages_spec {α : Type} (targets : List α)
    (hne : 1 ≤ targets.length) :
    (send_batched_messages targets).length =
        ceilDiv targets.length (batchParams targets.length).1 ∧
      ((send_batched_messages targets).map BatchTask.batch).flatten = targets ∧
      (∀ t ∈ send_batched_messages targets,
        t.permits_acquired = 1 ∧ t.batch.length ≤ (batchParams targets.length).1) ∧
      (batchParams targets.length).2 ≤ 8 ∧
      (targets.length ≤ 100 →
        batchParams targets.length = (targets.length, 1)) ∧
      (100 < targets.length → targets.length ≤ 1000 →
        batchParams targets.length = (50, 4)) ∧
      (1000 < targets.length → batchParams targets.length = (100, 8)) := by
  have hbs : 1 ≤ (batchParams targets.length).1 := by
    unfold batchParams
    split
    · simpa using hne
    · split <;> simp
  refine ⟨?_, ?_, ?_, ?_, ?_, ?_, ?_⟩
  · unfold send_batched_messages
    rw [List.length_map, chunksList_length _ hbs]
  · unfold send_batched_messages
    rw [List.map_map]
    have hcomp : (BatchTask.batch ∘ fun c : List α => (⟨1, c⟩ : BatchTask α)) = id := rfl
    rw [hcomp, List.map_id]
    exact chunksList_join _ targets
  · intro t ht
    unfold send_batched_messages at ht
    simp only [List.mem_map] at ht
    obtain ⟨c, hc, rfl⟩ := ht
    exact ⟨rfl, chunksList_size_le _ hbs targets c hc⟩
  · unfold batchParams
    split
    · simp
    · split <;> simp
  · intro h; simp [batchParams, h]
  · intro h1 h2
    simp [batchParams, h2, Nat.not_le.mpr h1]
  · intro h
    have h1 : ¬ targets.length ≤ 100 := by omega
    have h2 : ¬ targets.length ≤ 1000 := by omega
    simp [batchParams, h1, h2]

/-- Witness for the corrected C2 theorem at a concrete three-element target
list. -/
theorem send_batched_messages_spec_witness :
    1 ≤ ([0, 1, 2] : List Nat).length ∧
      (send_batched_messages ([0, 1, 2] : List Nat)).length =
        ceilDiv ([0, 1, 2] : List Nat).length (batchParams ([0, 1, 2] : List Nat).length).1 := by
  refine ⟨by decide, ?_⟩
  exact (send_batched_messages_spec ([0, 1, 2] : List Nat) (by decide)).1

/-- Error kinds surfaced by the adapter, mirroring the crate Error enum
variants reached by the embedded code. -/
inductive AppError where
  | auth (msg : String)
  | channel (msg : String)
  | connection (msg : String)
  | redis (msg : String)
  | other (msg : String)
deriving DecidableEq

/-- Cluster request kinds issued through send_request. -/
inductive RequestType where
  | channelMembers
  | channelSockets
  | channelSocketsCount
  | socketExistsInChannel
  | terminateUserConnections
  | channelsWithSocketsCount
  | socketsCount
  | countUserConnectionsInChannel
deriving DecidableEq

/-- ResponseBody of the cluster request protocol, with HashMaps and the
HashSet embedded as lists. -/
structure ResponseBody where
  request_id : String
  node_id : String
  app_id : String
  members : List (String × PresenceMemberInfo)
  socket_ids : List String
  sockets_count : Nat
  channels_with_sockets_count : List (String × Nat)
  exists_ : Bool
  channels : List String
  members_count : Nat

/-- Operations send_request performs on shared state, recorded as a trace:
inserting and removing the PendingRequest slot, publishing the request on
the transport, and aggregating the collected responses. -/
inductive SREvent where
  | insertPending (request_id : String)
  | publishRequest (request_id : String)
  | aggregate (request_id : String) (responses : List ResponseBody)
  | removePending (request_id : String)

/-- Empty ResponseBody returned by the `expected == 0` short circuit of
send_request, echoing the request id and the node id. -/
def emptyResponseBody (request_id node_id app_id : String) : ResponseBody :=
  { request_id := request_id
    node_id := node_id
    app_id := app_id
    members := []
    socket_ids := []
    sockets_count := 0
    channels_with_sockets_count := []
    exists_ := false
    channels := []
    members_count := 0 }

/-- HorizontalAdapterBase::send_request. Parameters stand for the
environment the async code reads: node_count is the transport node count,
publish_ok tells whether publish_request succeeded, agg is
HorizontalAdapter::aggregate_responses (which lives outside the embedded
sources), and received is the content of the PendingRequest response slot
when the waiting loop exits (by quorum or by timeout). The result pairs the
trace of state operations, in order, with the returned value. -/
def send_request (node_count : Nat) (request_id node_id app_id : String)
    (request_type : RequestType) (publish_ok : Bool)
    (agg : RequestType → List ResponseBody → ResponseBody)
    (received : List ResponseBody) : List SREvent × Except AppError ResponseBody :=
  if publish_ok = false then
    ([SREvent.insertPending request_id], Except.error (AppError.other "publish failed"))
  else if node_count - 1 = 0 then
    ([SREvent.insertPending request_id, SREvent.publishRequest request_id,
      SREvent.removePending request_id],
     Except.ok (emptyResponseBody request_id node_id app_id))
  else
    ([SREvent.insertPending request_id, SREvent.publishRequest request_id,
      SREvent.aggregate request_id received, SREvent.removePending request_id],
     Except.ok (agg request_type received))

/-- Redis reply values as far as get_node_count inspects them. -/
inductive RedisValue where
  | int (i : Int)
  | bulk (s : String)
  | simple (s : String)
  | other

/-- Rust `as usize` cast from i64, two's-complement wrap into 0..2^64. -/
def intAsUsize (i : Int) : Nat := (i % (2 : Int) ^ 64).toNat

/-- RedisClusterTransport::get_node_count: issue PUBSUB NUMSUB on the
request channel and read the subscriber count out of the reply; every
malformed or failed reply collapses to 1, and an integer count is clamped
below at 1. A connection acquisition failure is the only error path. -/
def get_node_count (conn_ok : Bool) (reply : Except String (List RedisValue)) :
    Except AppError Nat :=
  if conn_ok = false then
    Except.error (AppError.redis "failed to get cluster connection")
  else
    match reply with
    | Except.error _ => Except.ok 1
    | Except.ok values =>
      if 2 ≤ values.length then
        match values[1]? with
        | some (RedisValue.int count) => Except.ok (max (intAsUsize count) 1)
        | _ => Except.ok 1
      else Except.ok 1

/-- The node-count lower bound of get_node_count, shared helper of the C3
theorem. -/
theorem get_node_count_ge_one :
    ∀ conn_ok reply n, get_node_count conn_ok reply = Except.ok n → 1 ≤ n := by
  intro conn_ok reply n h
  unfold get_node_count at h
  split at h
  · exact absurd h (by simp)
  · split at h
    · simp only [Except.ok.injEq] at h; omega
    · split at h
      · split at h
        · simp only [Except.ok.injEq] at h
          exact h ▸ le_max_right _ 1
        · simp only [Except.ok.injEq] at h; omega
      · simp only [Except.ok.injEq] at h; omega

/-- C3: with a single-node transport (node_count = 1, so expected = 0) and
a successful publish, send_request immediately returns the empty response
echoing the request id, with zero counts, empty collections and exists
false, and the trace removes the PendingRequest slot without aggregating;
moreover get_node_count returns at least 1 whenever it returns a count. -/
theorem send_request_single_node (request_id node_id app_id : String)
    (request_type : RequestType)
    (agg : RequestType → List ResponseBody → ResponseBody)
    (received : List ResponseBody) :
    (∀ conn_ok reply n, get_node_count conn_ok reply = Except.ok n → 1 ≤ n) ∧
    send_request 1 request_id node_id app_id request_type true agg received =
      ([SREvent.insertPending request_id, SREvent.publishRequest request_id,
        SREvent.removePending request_id],
       Except.ok
        { request_id := request_id
          node_id := node_id
          app_id := app_id
          members := []
          socket_ids := []
          sockets_count := 0
          channels_with_sockets_count := []
          exists_ := false
          channels := []
          members_count := 0 }) := by
  exact ⟨get_node_count_ge_one, rfl⟩

/-- Witness for the C3 theorem at concrete identifiers. -/
theorem send_request_single_node_witness :
    send_request 1 "req-1" "node-a" "app-1" RequestType.channelMembers true
        (fun _ _ => emptyResponseBody "x" "y" "z") [] =
      ([SREvent.insertPending "req-1", SREvent.publishRequest "req-1",
        SREvent.removePending "req-1"],
       Except.ok
        { request_id := "req-1"
          node_id := "node-a"
          app_id := "app-1"
          members := []
          socket_ids := []
          sockets_count := 0
          channels_with_sockets_count := []
          exists_ := false
          channels := []
          members_count := 0 }) := by
  exact (send_request_single_node "req-1" "node-a" "app-1" RequestType.channelMembers
    (fun _ _ => emptyResponseBody "x" "y" "z") []).2

/-- C4: in a cluster of at least two nodes, when the waiting loop exits
with fewer responses than expected (the timeout case), send_request still
returns Ok with the aggregation of exactly the responses received so far,
and in the trace the aggregation happens before the PendingRequest slot is
removed. -/
theorem send_request_partial_responses (node_count : Nat) (request_id node_id app_id : String)
    (request_type : RequestType)
    (agg : RequestType → List ResponseBody → ResponseBody)
    (received : List ResponseBody)
    (_hnodes : 2 ≤ node_count)
    (hfewer : received.length < node_count - 1) :
    send_request node_count request_id node_id app_id request_type true agg received =
      ([SREvent.insertPending request_id, SREvent.publishRequest request_id,
        SREvent.aggregate request_id received, SREvent.removePending request_id],
       Except.ok (agg request_type received)) := by
  unfold send_request
  rw [if_neg (by simp)]
  rw [if_neg (by omega)]

/-- Witness for the C4 theorem: a three-node cluster in which a single
response arrived before the timeout. -/
theorem send_request_partial_responses_witness :
    (2 ≤ 3 ∧ ([emptyResponseBody "r" "n2" "a"] : List ResponseBody).length < 3 - 1) ∧
      send_request 3 "req-2" "node-a" "app-1" RequestType.channelSocketsCount true
          (fun _ rs => emptyResponseBody (String.append "agg-" (toString rs.length)) "n" "a")
          [emptyResponseBody "r" "n2" "a"] =
        ([SREvent.insertPending "req-2", SREvent.publishRequest "req-2",
          SREvent.aggregate "req-2" [emptyResponseBody "r" "n2" "a"],
          SREvent.removePending "req-2"],
         Except.ok (emptyResponseBody "agg-1" "n" "a")) := by
  refine ⟨⟨by omega, by simp⟩, ?_⟩
  have h := send_request_partial_responses 3 "req-2" "node-a" "app-1"
    RequestType.channelSocketsCount
    (fun _ rs => emptyResponseBody (String.append "agg-" (toString rs.length)) "n" "a")
    [emptyResponseBody "r" "n2" "a"] (by omega) (by simp)
  rw [h]
  rfl

/-- MessageData of the websocket protocol, as far as the channel manager
inspects it: a structured payload carrying channel, channel_data and the
extra map, an already-parsed JSON payload, or a raw string payload. -/
inductive MessageData where
  | structured (channel : Option String) (channel_data : Option String)
      (extra : List (String × JsonValue))
  | json (data : JsonValue)
  | strData (raw : String)

/-- PusherMessage as far as the channel manager inspects it. -/
structure PusherMessage where
  event : Option String
  channel : Option String
  data : Option MessageData

/-- BroadcastMessage published on the cluster broadcast topic. The f64
timestamp is embedded as an opaque Nat. -/
structure BroadcastMessage where
  node_id : String
  app_id : String
  channel : String
  message : String
  except_socket_id : Option String
  timestamp_ms : Option Nat

/-- What the on_broadcast handler of start_listeners does with an incoming
BroadcastMessage: drop it as its own echo, ignore it because the payload
does not deserialize, or replay it through the local adapter's send. -/
inductive BroadcastAction where
  | dropped
  | parseFailed
  | delivered (channel : String) (message : PusherMessage)
      (except_socket_id : Option String) (app_id : String) (timestamp_ms : Option Nat)

/-- HorizontalAdapterBase::start_listeners, on_broadcast closure: compare
the sender node id with our own, then deserialize the payload and replay it
through the local adapter with the same channel, exclusion and timestamp.
The deserializer serde_json::from_str is taken as a parameter. -/
def on_broadcast (self_node_id : String) (deserialize : String → Option PusherMessage)
    (broadcast : BroadcastMessage) : BroadcastAction :=
  if broadcast.node_id = self_node_id then BroadcastAction.dropped
  else
    match deserialize broadcast.message with
    | none => BroadcastAction.parseFailed
    | some message =>
      BroadcastAction.delivered broadcast.channel message broadcast.except_socket_id
        broadcast.app_id broadcast.timestamp_ms

/-- C5: a broadcast whose node_id equals the receiving node's own id is
dropped without touching the local adapter, and any other broadcast whose
payload deserializes is replayed through the local send with the original
channel, app, timestamp and except_socket_id exclusion. -/
theorem on_broadcast_spec (self_node_id : String)
    (deserialize : String → Option PusherMessage) (broadcast : BroadcastMessage) :
    (broadcast.node_id = self_node_id →
      on_broadcast self_node_id deserialize broadcast = BroadcastAction.dropped) ∧
    (broadcast.node_id ≠ self_node_id →
      ∀ message, deserialize broadcast.message = some message →
        on_broadcast self_node_id deserialize broadcast =
          BroadcastAction.delivered broadcast.channel message broadcast.except_socket_id
            broadcast.app_id broadcast.timestamp_ms) := by
  constructor
  · intro h
    unfold on_broadcast
    rw [if_pos h]
  · intro h message hm
    unfold on_broadcast
    rw [if_neg h, hm]

/-- Witness for the C5 theorem: a two-node scenario exercising both the
own-echo drop and a replayed foreign broadcast. -/
theorem on_broadcast_spec_witness :
    on_broadcast "node-a"
        (fun _ => some { event := some "msg", channel := some "chat", data := none })
        { node_id := "node-a", app_id := "app-1", channel := "chat", message := "m",
          except_socket_id := none, timestamp_ms := some 5 } = BroadcastAction.dropped ∧
      on_broadcast "node-a"
        (fun _ => some { event := some "msg", channel := some "chat", data := none })
        { node_id := "node-b", app_id := "app-1", channel := "chat", message := "m",
          except_socket_id := some "sock-1", timestamp_ms := some 5 } =
        BroadcastAction.delivered "chat"
          { event := some "msg", channel := some "chat", data := none }
          (some "sock-1") "app-1" (some 5) := by
  constructor
  · exact (on_broadcast_spec "node-a"
      (fun _ => some { event := some "msg", channel := some "chat", data := none })
      { node_id := "node-a", app_id := "app-1", channel := "chat", message := "m",
        except_socket_id := none, timestamp_ms := some 5 }).1 rfl
  · exact (on_broadcast_spec "node-a"
      (fun _ => some { event := some "msg", channel := some "chat", data := none })
      { node_id := "node-b", app_id := "app-1", channel := "chat", message := "m",
        except_socket_id := some "sock-1", timestamp_ms := some 5 }).2
      (by simp) _ rfl

/-- Steps performed by HorizontalAdapterBase::send, recorded as a trace:
the local fan-out through the local adapter, the warning logged when the
local fan-out fails, and the publish of the BroadcastMessage. -/
inductive SendEvent where
  | localSend (channel : String) (message : PusherMessage)
      (except_socket_id : Option String) (app_id : String)
  | warnLocalSendFailed
  | publishBroadcast (broadcast : BroadcastMessage)

/-- Warning events derived from the local fan-out result: a failed local
send is logged and swallowed. -/
def warnEvents (local_result : Except AppError Unit) : List SendEvent :=
  match local_result with
  | Except.error _ => [SendEvent.warnLocalSendFailed]
  | Except.ok _ => []

/-- HorizontalAdapterBase::send: fan out locally first, log (not propagate)
a local failure, serialize the message, and publish a BroadcastMessage
stamped with the node id and with timestamp_ms defaulted to the current
time when the caller passed none. local_result is the outcome of the local
adapter's send, serialize is serde_json::to_string, now_ms is the clock
read, publish_ok the outcome of transport.publish_broadcast. -/
def horizontal_send (node_id channel : String) (message : PusherMessage)
    (except_socket_id : Option String) (app_id : String) (start_time_ms : Option Nat)
    (local_result : Except AppError Unit)
    (serialize : PusherMessage → Except AppError String)
    (now_ms : Nat) (publish_ok : Bool) : List SendEvent × Except AppError Unit :=
  let ev0 := [SendEvent.localSend channel message except_socket_id app_id] ++
    warnEvents local_result
  match serialize message with
  | Except.error e => (ev0, Except.error e)
  | Except.ok message_json =>
    let broadcast : BroadcastMessage :=
      { node_id := node_id
        app_id := app_id
        channel := channel
        message := message_json
        except_socket_id := except_socket_id
        timestamp_ms := some (start_time_ms.getD now_ms) }
    (ev0 ++ [SendEvent.publishBroadcast broadcast],
     if publish_ok then Except.ok () else Except.error (AppError.other "publish failed"))

/-- C6: whenever the message serializes, the trace of send starts with the
local fan-out and ends with the broadcast publish, the published message is
stamped with the node's id and a present timestamp_ms, and this holds for
every local fan-out outcome, so a local failure only inserts a warning and
never prevents the publish. -/
theorem horizontal_send_spec (node_id channel : String) (message : PusherMessage)
    (except_socket_id : Option String) (app_id : String) (start_time_ms : Option Nat)
    (local_result : Except AppError Unit)
    (serialize : PusherMessage → Except AppError String)
    (now_ms : Nat) (publish_ok : Bool) (message_json : String)
    (hser : serialize message = Except.ok message_json) :
    horizontal_send node_id channel message except_socket_id app_id start_time_ms
        local_result serialize now_ms publish_ok =
      ([SendEvent.localSend channel message except_socket_id app_id] ++
        warnEvents local_result ++
        [SendEvent.publishBroadcast
          { node_id := node_id
            app_id := app_id
            channel := channel
            message := message_json
            except_socket_id := except_socket_id
            timestamp_ms := some (start_time_ms.getD now_ms) }],
       if publish_ok then Except.ok () else Except.error (AppError.other "publish failed")) := by
  unfold horizontal_send
  rw [hser]

/-- Witness for the C6 theorem: a failing local fan-out still reaches the
publish step with the node id and timestamp stamped. -/
theorem horizontal_send_spec_witness :
    ((fun _ : PusherMessage => Except.ok "payload") =
        (fun _ : PusherMessage => (Except.ok "payload" : Except AppError String))) ∧
      horizontal_send "node-a" "chat" { event := some "msg", channel := some "chat", data := none }
          (some "sock-1") "app-1" none (Except.error (AppError.connection "down"))
          (fun _ => Except.ok "payload") 42 true =
        ([SendEvent.localSend "chat" { event := some "msg", channel := some "chat", data := none }
            (some "sock-1") "app-1",
          SendEvent.warnLocalSendFailed,
          SendEvent.publishBroadcast
            { node_id := "node-a", app_id := "app-1", channel := "chat", message := "payload",
              except_socket_id := some "sock-1", timestamp_ms := some 42 }],
         Except.ok ()) := by
  refine ⟨rfl, ?_⟩
  have h := horizontal_send_spec "node-a" "chat"
    { event := some "msg", channel := some "chat", data := none }
    (some "sock-1") "app-1" none (Except.error (AppError.connection "down"))
    (fun _ => Except.ok "payload") 42 true "payload" rfl
  rw [h]
  rfl

/-- Field lookup on a JSON value, the sonic_rs `get` used by the channel
manager: only objects yield fields. -/
def jsonGet (v : JsonValue) (key : String) : Option JsonValue :=
  match v with
  | JsonValue.obj fields => lookupKey fields key
  | _ => none

/-- The sonic_rs `as_str` projection. -/
def jsonAsStr (v : JsonValue) : Option String :=
  match v with
  | JsonValue.str s => some s
  | _ => none

/-- The `get(key).and_then(as_str).unwrap_or("")` pattern of the signature
code: read a string field, defaulting to the empty string. -/
def jsonGetStr (v : JsonValue) (key : String) : String :=
  ((jsonGet v key).bind jsonAsStr).getD ""

/-- Body shared by the three arms of get_data_to_sign_for_signature: the
socket id, a colon and the channel, with a colon and the channel_data
appended when the channel is a presence channel and channel_data is
non-empty. -/
def signatureStringFor (socket_id channel channel_data : String) : String :=
  if strStartsWith channel "presence-" ∧ channel_data ≠ "" then
    socket_id ++ ":" ++ channel ++ ":" ++ channel_data
  else
    socket_id ++ ":" ++ channel

/-- The channel and channel_data that each MessageData arm of
get_data_to_sign_for_signature extracts before building the string: the
structured arm unwraps the channel (none models the panic) and defaults a
missing channel_data to empty; the JSON and raw-string arms read both
fields with an empty-string default, the raw arm after parsing the payload
(a failed parse yields the default JSON value). -/
def extractChannelAndData (parseJson : String → Option JsonValue) :
    MessageData → Option (String × String)
  | MessageData.structured channel channel_data _ =>
    channel.map (fun ch => (ch, channel_data.getD ""))
  | MessageData.json data =>
    some (jsonGetStr data "channel", jsonGetStr data "channel_data")
  | MessageData.strData raw =>
    let parsed := (parseJson raw).getD JsonValue.null
    some (jsonGetStr parsed "channel", jsonGetStr parsed "channel_data")

/-- ChannelManager::get_data_to_sign_for_signature: unwrap the message data
(none models the panic on a missing payload) and build the signing string
for the arm's channel and channel_data. -/
def get_data_to_sign_for_signature (parseJson : String → Option JsonValue)
    (socket_id : String) (message : PusherMessage) : Option String :=
  message.data.bind fun message_data =>
    match message_data with
    | MessageData.structured channel channel_data _ =>
      channel.map fun ch => signatureStringFor socket_id ch (channel_data.getD "")
    | MessageData.json data =>
      some (signatureStringFor socket_id (jsonGetStr data "channel")
        (jsonGetStr data "channel_data"))
    | MessageData.strData raw =>
      let parsed := (parseJson raw).getD JsonValue.null
      some (signatureStringFor socket_id (jsonGetStr parsed "channel")
        (jsonGetStr parsed "channel_data"))

/-- ChannelManager::get_expected_signature: the app key, a colon, and the
signature of the data-to-sign under the app secret. Token::sign lives in
crate::token outside the embedded sources and is taken as the parameter
hmacSha256Hex, per the spec the hex-encoded HMAC-SHA256 under the secret. -/
def get_expected_signature (hmacSha256Hex : String → String → String)
    (parseJson : String → Option JsonValue) (key secret socket_id : String)
    (message : PusherMessage) : Option String :=
  (get_data_to_sign_for_signature parseJson socket_id message).map
    (fun data => key ++ ":" ++ hmacSha256Hex secret data)

/-- Modelled from the spec: secure_compare of crate::token (not under src)
is the required constant-time comparison; functionally it decides equality
of the two strings. -/
def secure_compare (a b : String) : Bool := a == b

/-- ChannelManager::signature_is_valid: compare the presented signature
with the expected one using secure_compare. -/
def signature_is_valid (hmacSha256Hex : String → String → String)
    (parseJson : String → Option JsonValue) (key secret socket_id signature : String)
    (message : PusherMessage) : Option Bool :=
  (get_expected_signature hmacSha256Hex parseJson key secret socket_id message).map
    (fun expected => secure_compare signature expected)

/-- C7: for every signature check whose message yields channel ch and
channel_data cd, the string to sign is socket_id colon ch, and it takes the
form with colon and cd appended exactly when ch starts with "presence-"
and cd is non-empty; the expected token is the key, a colon and the
HMAC-SHA256 hex of that string under the secret; and the secure_compare
with the presented signature decides equality with that token. -/
theorem signature_check_spec (hmacSha256Hex : String → String → String)
    (parseJson : String → Option JsonValue)
    (key secret socket_id signature : String)
    (message : PusherMessage) (md : MessageData) (ch cd : String)
    (hdata : message.data = some md)
    (hex : extractChannelAndData parseJson md = some (ch, cd)) :
    get_data_to_sign_for_signature parseJson socket_id message =
        some (signatureStringFor socket_id ch cd) ∧
      (signatureStringFor socket_id ch cd = socket_id ++ ":" ++ ch ++ ":" ++ cd ↔
        (strStartsWith ch "presence-" ∧ cd ≠ "")) ∧
      (¬(strStartsWith ch "presence-" ∧ cd ≠ "") →
        signatureStringFor socket_id ch cd = socket_id ++ ":" ++ ch) ∧
      get_expected_signature hmacSha256Hex parseJson key secret socket_id message =
        some (key ++ ":" ++ hmacSha256Hex secret (signatureStringFor socket_id ch cd)) ∧
      signature_is_valid hmacSha256Hex parseJson key secret socket_id signature message =
        some (secure_compare signature
          (key ++ ":" ++ hmacSha256Hex secret (signatureStringFor socket_id ch cd))) ∧
      (secure_compare signature
          (key ++ ":" ++ hmacSha256Hex secret (signatureStringFor socket_id ch cd)) = true ↔
        signature = key ++ ":" ++ hmacSha256Hex secret (signatureStringFor socket_id ch cd)) := by
  have hvia : get_data_to_sign_for_signature parseJson socket_id message =
      (message.data.bind (extractChannelAndData parseJson)).map
        (fun p => signatureStringFor socket_id p.1 p.2) := by
    unfold get_data_to_sign_for_signature extractChannelAndData
    cases hmd : message.data with
    | none => rfl
    | some md0 =>
      cases md0 with
      | structured channel channel_data extra => cases channel <;> rfl
      | json data => rfl
      | strData raw => rfl
  have hsign : get_data_to_sign_for_signature parseJson socket_id message =
      some (signatureStringFor socket_id ch cd) := by
    rw [hvia, hdata]
    simp only [Option.some_bind, hex, Option.map_some']
  refine ⟨hsign, ?_, ?_, ?_, ?_, ?_⟩
  · by_cases hcond : strStartsWith ch "presence-" ∧ cd ≠ ""
    · constructor
      · intro _; exact hcond
      · intro _
        unfold signatureStringFor
        rw [if_pos hcond]
    · constructor
      · intro heq
        exfalso
        unfold signatureStringFor at heq
        rw [if_neg hcond] at heq
        have hlen := congrArg String.length heq
        have hcolon : (":" : String).length = 1 := rfl
        simp only [String.length_append] at hlen
        omega
      · intro h; exact absurd h hcond
  · intro h
    unfold signatureStringFor
    rw [if_neg h]
  · unfold get_expected_signature
    rw [hsign]
    rfl
  · unfold signature_is_valid get_expected_signature
    rw [hsign]
    rfl
  · unfold secure_compare
    exact beq_iff_eq

/-- Witness for the C7 theorem at a concrete presence subscription. -/
theorem signature_check_spec_witness :
    (({ event := some "pusher:subscribe", channel := none,
        data := some (MessageData.structured (some "presence-room") (some "cdata") []) } :
        PusherMessage).data =
      some (MessageData.structured (some "presence-room") (some "cdata") [])) ∧
    (extractChannelAndData (fun _ => none)
        (MessageData.structured (some "presence-room") (some "cdata") []) =
      some ("presence-room", "cdata")) ∧
    get_data_to_sign_for_signature (fun _ => none) "1234.5678"
        { event := some "pusher:subscribe", channel := none,
          data := some (MessageData.structured (some "presence-room") (some "cdata") []) } =
      some (signatureStringFor "1234.5678" "presence-room" "cdata") := by
  refine ⟨rfl, rfl, ?_⟩
  exact (signature_check_spec (fun _ d => d) (fun _ => none) "key" "secret" "1234.5678" "sig"
    { event := some "pusher:subscribe", channel := none,
      data := some (MessageData.structured (some "presence-room") (some "cdata") []) }
    (MessageData.structured (some "presence-room") (some "cdata") [])
    "presence-room" "cdata" rfl rfl).1

/-- Modelled from the spec: ChannelType of src/channel/types.rs is not
under the embedded sources; per the spec a channel's type derives from its
name. -/
inductive ChannelType where
  | presence
  | privateEncrypted
  | privateChannel
  | serverToUser
  | publicChannel
deriving DecidableEq

/-- Modelled from the spec: ChannelType::from_name derives the type from
the channel name's leading pattern, presence-*, private-encrypted-*,
private-*, the per-user #server-to-user-<uid> form, else public. -/
def ChannelType.from_name (name : String) : ChannelType :=
  if strStartsWith name "presence-" then ChannelType.presence
  else if strStartsWith name "private-encrypted-" then ChannelType.privateEncrypted
  else if strStartsWith name "private-" then ChannelType.privateChannel
  else if strStartsWith name "#server-to-user-" then ChannelType.serverToUser
  else ChannelType.publicChannel

/-- Modelled from the spec: presence, private-encrypted and private
channels are the authenticated channel types. -/
def ChannelType.requires_authentication : ChannelType → Bool
  | ChannelType.presence => true
  | ChannelType.privateEncrypted => true
  | ChannelType.privateChannel => true
  | _ => false

/-- PresenceMember parsed from a presence subscription payload. -/
structure PresenceMember where
  user_id : String
  user_info : JsonValue
  socket_id : Option String

/-- ChannelManager::extract_presence_member: either the payload wraps a
channel_data JSON string that is parsed and read, or user_id and user_info
are read directly; a missing user_id is a channel error, a missing
user_info defaults to the empty object, and the optional socket id comes
from the extra map. -/
def extract_presence_member (parseJson : String → Option JsonValue)
    (data : JsonValue) (extra : List (String × JsonValue)) :
    Except AppError PresenceMember :=
  match (jsonGet data "channel_data").bind jsonAsStr with
  | some channel_data_str =>
    match parseJson channel_data_str with
    | none => Except.error (AppError.channel "Invalid JSON in channel_data")
    | some user_data =>
      match (jsonGet user_data "user_id").bind jsonAsStr with
      | none => Except.error (AppError.channel "Missing user_id in channel_data")
      | some uid =>
        Except.ok
          { user_id := uid
            user_info := (jsonGet user_data "user_info").getD (JsonValue.obj [])
            socket_id := (lookupKey extra "socket_id").bind jsonAsStr }
  | none =>
    match (jsonGet data "user_id").bind jsonAsStr with
    | none => Except.error (AppError.channel "Missing user_id in presence data")
    | some uid =>
      Except.ok
        { user_id := uid
          user_info := (jsonGet data "user_info").getD (JsonValue.obj [])
          socket_id := (lookupKey extra "socket_id").bind jsonAsStr }

/-- ChannelManager::parse_presence_data: fail on a missing payload; for the
structured arm require channel_data, parse it as JSON and extract the
member; for the JSON arm extract directly; any other payload form is an
invalid presence data format. -/
def parse_presence_data (parseJson : String → Option JsonValue)
    (data : Option MessageData) : Except AppError PresenceMember :=
  match data with
  | none => Except.error (AppError.channel "Missing presence data")
  | some (MessageData.structured _ channel_data extra) =>
    match channel_data with
    | none => Except.error (AppError.channel "Missing channel_data")
    | some channel_data_str =>
      match parseJson channel_data_str with
      | none => Except.error (AppError.channel "Invalid JSON in channel_data")
      | some parsed => extract_presence_member parseJson parsed extra
  | some (MessageData.json d) => extract_presence_member parseJson d []
  | some (MessageData.strData _) =>
    Except.error (AppError.channel "Invalid presence data format")

/-- JoinResponse returned by ChannelManager::subscribe. -/
structure JoinResponse where
  success : Bool
  channel_connections : Option Nat
  auth_error : Option String
  member : Option PresenceMember
  error_message : Option String
  error_code : Option Int
  type_ : Option String

/-- ChannelManager::create_success_join_response. -/
def create_success_join_response (channel_connections : Nat)
    (member : Option PresenceMember) : JoinResponse :=
  { success := true
    channel_connections := some channel_connections
    auth_error := none
    member := member
    error_message := none
    error_code := none
    type_ := none }

/-- Channel-membership mutations subscribe performs through the connection
manager, recorded as a trace. -/
inductive SubEvent where
  | addToChannel (app_id channel socket_id : String)

/-- ChannelManager::subscribe: classify the channel, reject an
unauthenticated subscription to an authenticated channel type, parse
presence data eagerly, then call add_to_channel and read the channel socket
count under the connection-manager lock, and answer with a success response
whose member is the parsed member only when the socket was newly added.
add_result and total_result stand for the connection manager's answers to
add_to_channel and get_channel_sockets().len(). -/
def subscribe (parseJson : String → Option JsonValue) (socket_id : String)
    (data : PusherMessage) (channel_name : String) (is_authenticated : Bool)
    (app_id : String) (add_result : Except AppError Bool)
    (total_result : Except AppError Nat) :
    List SubEvent × Except AppError JoinResponse :=
  let channel_type := ChannelType.from_name channel_name
  if channel_type.requires_authentication ∧ ¬is_authenticated then
    ([], Except.error (AppError.auth "Channel requires authentication"))
  else
    let memberE : Except AppError (Option PresenceMember) :=
      if channel_type = ChannelType.presence then
        (parse_presence_data parseJson data.data).map (fun m => some m)
      else Except.ok none
    match memberE with
    | Except.error e => ([], Except.error e)
    | Except.ok member =>
      let events := [SubEvent.addToChannel app_id channel_name socket_id]
      match add_result with
      | Except.error e => (events, Except.error e)
      | Except.ok was_newly_added =>
        match total_result with
        | Except.error e => (events, Except.error e)
        | Except.ok total_connections =>
          let response_member := if was_newly_added then member else none
          (events, Except.ok (create_success_join_response total_connections response_member))

/-- C8: when the channel type requires authentication and the caller is not
authenticated, or when the channel is a presence channel whose presence
data is missing or malformed, subscribe returns an error with an empty
mutation trace, so add_to_channel is never invoked and the namespace index
is unchanged. -/
theorem subscribe_rejects_before_mutation (parseJson : String → Option JsonValue)
    (socket_id : String) (data : PusherMessage) (channel_name : String)
    (is_authenticated : Bool) (app_id : String) (add_result : Except AppError Bool)
    (total_result : Except AppError Nat)
    (hbad :
      ((ChannelType.from_name channel_name).requires_authentication = true ∧
        is_authenticated = false) ∨
      (ChannelType.from_name channel_name = ChannelType.presence ∧
        ∃ e, parse_presence_data parseJson data.data = Except.error e)) :
    (subscribe parseJson socket_id data channel_name is_authenticated app_id
        add_result total_result).1 = [] ∧
      ∃ e, (subscribe parseJson socket_id data channel_name is_authenticated app_id
        add_result total_result).2 = Except.error e := by
  unfold subscribe
  rcases hbad with ⟨hauth, hnoauth⟩ | ⟨hpres, e, herr⟩
  · rw [if_pos (by rw [hauth, hnoauth]; exact ⟨rfl, by simp⟩)]
    exact ⟨rfl, _, rfl⟩
  · by_cases hgate : (ChannelType.from_name channel_name).requires_authentication ∧
      ¬is_authenticated
    · rw [if_pos hgate]
      exact ⟨rfl, _, rfl⟩
    · rw [if_neg hgate]
      rw [if_pos hpres, herr]
      exact ⟨rfl, _, rfl⟩

/-- Witness for the C8 theorem: an unauthenticated private-channel
subscription. -/
theorem subscribe_rejects_before_mutation_witness :
    (((ChannelType.from_name "private-room").requires_authentication = true ∧
        false = false) ∨
      (ChannelType.from_name "private-room" = ChannelType.presence ∧
        ∃ e, parse_presence_data (fun _ => none)
          ({ event := none, channel := none, data := none } : PusherMessage).data =
            Except.error e)) ∧
      (subscribe (fun _ => none) "sock-1"
          { event := none, channel := none, data := none } "private-room" false "app-1"
          (Except.ok true) (Except.ok 1)).1 = [] := by
  refine ⟨Or.inl ⟨rfl, rfl⟩, ?_⟩
  exact (subscribe_rejects_before_mutation (fun _ => none) "sock-1"
    { event := none, channel := none, data := none } "private-room" false "app-1"
    (Except.ok true) (Except.ok 1) (Or.inl ⟨rfl, rfl⟩)).1

/-- C9: a successful presence subscribe whose socket is already in the
channel (add_to_channel answered false) returns success with member none,
while the same subscribe with a newly added socket returns the parsed
member; so member_added data is available only on the first join. -/
theorem subscribe_idempotent_member_none (parseJson : String → Option JsonValue)
    (socket_id : String) (data : PusherMessage) (channel_name : String)
    (app_id : String) (total_connections : Nat) (member : PresenceMember)
    (hpres : ChannelType.from_name channel_name = ChannelType.presence)
    (hparse : parse_presence_data parseJson data.data = Except.ok member) :
    (subscribe parseJson socket_id data channel_name true app_id
        (Except.ok false) (Except.ok total_connections)).2 =
      Except.ok
        { success := true
          channel_connections := some total_connections
          auth_error := none
          member := none
          error_message := none
          error_code := none
          type_ := none } ∧
      (subscribe parseJson socket_id data channel_name true app_id
        (Except.ok true) (Except.ok total_connections)).2 =
      Except.ok
        { success := true
          channel_connections := some total_connections
          auth_error := none
          member := some member
          error_message := none
          error_code := none
          type_ := none } := by
  unfold subscribe
  simp only [hpres, hparse, ChannelType.requires_authentication]
  constructor <;> simp [create_success_join_response, Except.map]

/-- Witness for the C9 theorem at a concrete presence payload. -/
theorem subscribe_idempotent_member_none_witness :
    (ChannelType.from_name "presence-room" = ChannelType.presence ∧
      parse_presence_data
          (fun _ => some (JsonValue.obj [("user_id", JsonValue.str "u1")]))
          (some (MessageData.structured (some "presence-room") (some "cdata") [])) =
        Except.ok
          { user_id := "u1", user_info := JsonValue.obj [], socket_id := none }) ∧
      (subscribe (fun _ => some (JsonValue.obj [("user_id", JsonValue.str "u1")])) "sock-1"
          { event := none, channel := none,
            data := some (MessageData.structured (some "presence-room") (some "cdata") []) }
          "presence-room" true "app-1" (Except.ok false) (Except.ok 2)).2 =
        Except.ok
          { success := true
            channel_connections := some 2
            auth_error := none
            member := none
            error_message := none
            error_code := none
            type_ := none } := by
  refine ⟨⟨rfl, rfl⟩, ?_⟩
  exact (subscribe_idempotent_member_none
    (fun _ => some (JsonValue.obj [("user_id", JsonValue.str "u1")])) "sock-1"
    { event := none, channel := none,
      data := some (MessageData.structured (some "presence-room") (some "cdata") []) }
    "presence-room" "app-1" 2
    { user_id := "u1", user_info := JsonValue.obj [], socket_id := none }
    rfl rfl).1

/-- Namespace state as far as get_sockets_count reads it: the sockets map,
embedded as the list of live socket ids. -/
structure NamespaceModel where
  sockets : List String

/-- LocalAdapter state: the namespaces map from app id to namespace. -/
structure LocalAdapterModel where
  namespaces : List (String × NamespaceModel)

/-- LocalAdapter::get_or_create_namespace, used by most other adapter
methods (but not by get_sockets_count): inserts a fresh namespace when the
app has none, and returns the possibly-updated map. -/
def get_or_create_namespace (adapter : LocalAdapterModel) (app_id : String) :
    NamespaceModel × LocalAdapterModel :=
  match lookupKey adapter.namespaces app_id with
  | some ns => (ns, adapter)
  | none =>
    let ns : NamespaceModel := { sockets := [] }
    (ns, { namespaces := hashmapInsert adapter.namespaces app_id ns })

/-- LocalAdapter::get_sockets_count: read the app's namespace if present
and return the size of its sockets map, else Ok(0); the method reads
through namespaces.get and never inserts, so the returned adapter state is
the input state. -/
def get_sockets_count (adapter : LocalAdapterModel) (app_id : String) :
    Except AppError Nat × LocalAdapterModel :=
  match lookupKey adapter.namespaces app_id with
  | some ns => (Except.ok ns.sockets.length, adapter)
  | none => (Except.ok 0, adapter)

/-- C10: for an app id with no namespace, get_sockets_count answers Ok 0
rather than an error, and the namespaces map is unchanged, with no
namespace created as a side effect. -/
theorem get_sockets_count_missing_namespace (adapter : LocalAdapterModel)
    (app_id : String) (hmissing : lookupKey adapter.namespaces app_id = none) :
    get_sockets_count adapter app_id = (Except.ok 0, adapter) := by
  unfold get_sockets_count
  rw [hmissing]

/-- Witness for the C10 theorem: an adapter holding only another app's
namespace. -/
theorem get_sockets_count_missing_namespace_witness :
    (lookupKey ({ namespaces := [("app-2", { sockets := ["s1"] })] } :
        LocalAdapterModel).namespaces "app-1" = none) ∧
      get_sockets_count { namespaces := [("app-2", { sockets := ["s1"] })] } "app-1" =
        (Except.ok 0, { namespaces := [("app-2", { sockets := ["s1"] })] }) := by
  refine ⟨rfl, ?_⟩
  exact get_sockets_count_missing_namespace
    { namespaces := [("app-2", { sockets := ["s1"] })] } "app-1" rfl

end Sockudo
